import Mathlib

set_option autoImplicit false

/-!
Shallow embedding of `src/program.rs` (shader/program compilation pipeline of
the glium fork).  The graphics API is modelled as a deterministic oracle
(`Backend`): every value the code reads back from the API (handles, statuses,
info-log bytes, reflection data) is a field of the oracle.  Every mutating API
call the code issues, and every deletion task submitted to the context
executor, is recorded in an ordered trace of `GlCall`s.  A Rust `panic!`
(the `String::from_utf8(..).unwrap()` sites) is modelled as the overall
result being `none`.
-/

namespace Glium

/-- GL error code `GL_NO_ERROR` as matched by the source after `glLinkProgram`. -/
def GL_NO_ERROR : Nat := 0

/-- GL error code `GL_INVALID_VALUE`. -/
def GL_INVALID_VALUE : Nat := 0x0501

/-- GL error code `GL_INVALID_OPERATION`. -/
def GL_INVALID_OPERATION : Nat := 0x0502

/-- The three shader stages `Program::new` can compile
(`gl::VERTEX_SHADER`, `gl::GEOMETRY_SHADER`, `gl::FRAGMENT_SHADER`). -/
inductive ShaderStage where
  | vertex
  | geometry
  | fragment
deriving DecidableEq, Repr

/-- Mutating GL calls and context-executor task submissions issued by the
code, with the handles they act on. `createShader`/`createProgram` record the
handle the API returned. -/
inductive GlCall where
  | createShader (stage : ShaderStage) (ret : Nat)
  | shaderSource (id : Nat)
  | compileShader (id : Nat)
  | deleteShader (id : Nat)
  | createProgram (ret : Nat)
  | attachShader (program shader : Nat)
  | linkProgram (id : Nat)
  | useProgram (id : Nat)
  | deleteProgram (id : Nat)
deriving DecidableEq, Repr

/-- Mirror of the `ProgramCreationError` enum of `program.rs`. -/
inductive ProgramCreationError where
  | CompilationError (msg : String)
  | LinkingError (msg : String)
  | ProgramCreationFailure
  | ShaderTypeNotSupported
deriving DecidableEq, Repr

/-- Is `b` a UTF-8 continuation byte (`0x80..=0xBF`)? -/
def utf8Cont (b : Nat) : Bool := 0x80 ≤ b && b ≤ 0xBF

/-- Decoder for UTF-8 byte sequences, modelling `String::from_utf8`:
`none` exactly when the bytes are not valid UTF-8. -/
def utf8DecodeList : List Nat → Option (List Char)
  | [] => some []
  | b1 :: rest =>
    if b1 ≤ 0x7F then
      (utf8DecodeList rest).map (fun cs => Char.ofNat b1 :: cs)
    else if 0xC2 ≤ b1 && b1 ≤ 0xDF then
      match rest with
      | b2 :: rest2 =>
        if utf8Cont b2 then
          (utf8DecodeList rest2).map (fun cs =>
            Char.ofNat ((b1 - 0xC0) * 0x40 + (b2 - 0x80)) :: cs)
        else none
      | [] => none
    else if 0xE0 ≤ b1 && b1 ≤ 0xEF then
      match rest with
      | b2 :: b3 :: rest3 =>
        if utf8Cont b2 && utf8Cont b3 &&
            !(b1 == 0xE0 && b2 < 0xA0) && !(b1 == 0xED && b2 > 0x9F) then
          (utf8DecodeList rest3).map (fun cs =>
            Char.ofNat ((b1 - 0xE0) * 0x1000 + (b2 - 0x80) * 0x40 + (b3 - 0x80)) :: cs)
        else none
      | _ => none
    else if 0xF0 ≤ b1 && b1 ≤ 0xF4 then
      match rest with
      | b2 :: b3 :: b4 :: rest4 =>
        if utf8Cont b2 && utf8Cont b3 && utf8Cont b4 &&
            !(b1 == 0xF0 && b2 < 0x90) && !(b1 == 0xF4 && b2 > 0x8F) then
          (utf8DecodeList rest4).map (fun cs =>
            Char.ofNat ((b1 - 0xF0) * 0x40000 + (b2 - 0x80) * 0x1000 +
              (b3 - 0x80) * 0x40 + (b4 - 0x80)) :: cs)
        else none
      | _ => none
    else none

/-- Byte-to-text conversion used at every `String::from_utf8(..)` site. -/
def utf8Decode (bs : List Nat) : Option String :=
  (utf8DecodeList bs).map (fun cs => String.mk cs)

/-- Bytes of an ASCII string, for concrete oracle replies in examples. -/
def asciiBytes (s : String) : List Nat := s.data.map Char.toNat

/-- Deterministic oracle for everything the code reads back from the GL API:
backend profile flag, handles handed out by `glCreateShader`/`glCreateProgram`,
compile/link statuses, info-log bytes, and the uniform-reflection answers.
Compile results may depend on the stage and on the uploaded source text. -/
structure Backend where
  openglEs : Bool
  createShader : ShaderStage → Nat
  compileStatus : ShaderStage → String → Int
  shaderLog : ShaderStage → String → List Nat
  createProgram : Nat
  linkStatus : Int
  getError : Nat
  programLog : List Nat
  activeUniforms : Int
  uniformName : Nat → List Nat
  uniformType : Nat → Nat
  uniformSize : Nat → Int
  uniformLocation : String → Int

/-- GL calls made by `build_shader` once the stage handle `id` is allocated:
`glCreateShader`, `glShaderSource`, `glCompileShader`. -/
def shaderCalls (stage : ShaderStage) (id : Nat) : List GlCall :=
  [GlCall.createShader stage id, GlCall.shaderSource id, GlCall.compileShader id]

/-- Embedding of `build_shader` (`program.rs` lines 234-289): the synchronous
task that compiles one stage.  Returns the ordered trace of GL calls made and
`none` for the `unwrap` panic on an invalid-UTF-8 info log. -/
def build_shader (b : Backend) (stage : ShaderStage) (src : String) :
    List GlCall × Option (Except ProgramCreationError Nat) :=
  if stage = ShaderStage.geometry ∧ b.openglEs = true then
    ([], some (Except.error ProgramCreationError.ShaderTypeNotSupported))
  else
    if b.createShader stage = 0 then
      ([GlCall.createShader stage 0],
       some (Except.error ProgramCreationError.ShaderTypeNotSupported))
    else
      if b.compileStatus stage src = 0 then
        match utf8Decode (b.shaderLog stage src) with
        | none => (shaderCalls stage (b.createShader stage), none)
        | some msg =>
            (shaderCalls stage (b.createShader stage),
             some (Except.error (ProgramCreationError.CompilationError msg)))
      else
        (shaderCalls stage (b.createShader stage), some (Except.ok (b.createShader stage)))

/-- Embedding of the stage-compilation phase of `Program::new`
(`program.rs` lines 76-82): vertex, then geometry if requested, then fragment,
each through `try!`, so the first error aborts the build.  When a `try!`
returns early, the `shaders_store` vector is dropped, and each stored
`Shader`'s `Drop` submits a `DeleteShader` task (recorded in the trace).
On success, returns the stored shader handles in order. -/
def compileStages (b : Backend) (vs fs : String) (gs : Option String) :
    List GlCall × Option (Except ProgramCreationError (List Nat)) :=
  match build_shader b ShaderStage.vertex vs with
  | (tv, none) => (tv, none)
  | (tv, some (Except.error e)) => (tv, some (Except.error e))
  | (tv, some (Except.ok vid)) =>
    match gs with
    | none =>
      match build_shader b ShaderStage.fragment fs with
      | (tf, none) => (tv ++ tf, none)
      | (tf, some (Except.error e)) =>
          (tv ++ tf ++ [GlCall.deleteShader vid], some (Except.error e))
      | (tf, some (Except.ok fid)) => (tv ++ tf, some (Except.ok [vid, fid]))
    | some gsrc =>
      match build_shader b ShaderStage.geometry gsrc with
      | (tg, none) => (tv ++ tg, none)
      | (tg, some (Except.error e)) =>
          (tv ++ tg ++ [GlCall.deleteShader vid], some (Except.error e))
      | (tg, some (Except.ok gid)) =>
        match build_shader b ShaderStage.fragment fs with
        | (tf, none) => (tv ++ tg ++ tf, none)
        | (tf, some (Except.error e)) =>
            (tv ++ tg ++ tf ++ [GlCall.deleteShader vid, GlCall.deleteShader gid],
             some (Except.error e))
        | (tf, some (Except.ok fid)) =>
            (tv ++ tg ++ tf, some (Except.ok [vid, gid, fid]))

/-- Deletion tasks submitted by dropping a `Vec<Shader>` front to back. -/
def shaderDrops (ids : List Nat) : List GlCall := ids.map GlCall.deleteShader

/-- GL calls made by the link task once the program handle `id` is allocated:
`glCreateProgram`, one `glAttachShader` per stored shader, `glLinkProgram`. -/
def linkCalls (id : Nat) (shaderIds : List Nat) : List GlCall :=
  GlCall.createProgram id ::
    (shaderIds.map (fun sh => GlCall.attachShader id sh) ++ [GlCall.linkProgram id])

/-- Embedding of the create/attach/link task of `Program::new`
(`program.rs` lines 90-145): allocate a program handle, attach the shaders,
link, and on link failure classify `glGetError` exactly as the source does
(the non-`NO_ERROR` arms return before the info log is fetched; the
`NO_ERROR` arm falls through to the two-call info-log fetch). -/
def linkTask (b : Backend) (shaderIds : List Nat) :
    List GlCall × Option (Except ProgramCreationError Nat) :=
  if b.createProgram = 0 then
    ([GlCall.createProgram 0],
     some (Except.error ProgramCreationError.ProgramCreationFailure))
  else
    if b.linkStatus = 0 then
      if b.getError = GL_NO_ERROR then
        match utf8Decode b.programLog with
        | none => (linkCalls b.createProgram shaderIds, none)
        | some msg =>
            (linkCalls b.createProgram shaderIds,
             some (Except.error (ProgramCreationError.LinkingError msg)))
      else if b.getError = GL_INVALID_VALUE then
        (linkCalls b.createProgram shaderIds,
         some (Except.error (ProgramCreationError.LinkingError
          "glLinkProgram triggered GL_INVALID_VALUE")))
      else if b.getError = GL_INVALID_OPERATION then
        (linkCalls b.createProgram shaderIds,
         some (Except.error (ProgramCreationError.LinkingError
          "glLinkProgram triggered GL_INVALID_OPERATION")))
      else
        (linkCalls b.createProgram shaderIds,
         some (Except.error (ProgramCreationError.LinkingError
          "glLinkProgram triggered an unknown error")))
    else
      (linkCalls b.createProgram shaderIds, some (Except.ok b.createProgram))

/-- Per-uniform record stored in the map: (location, data type, data size),
mirroring the `(GLint, GLenum, GLint)` triple of the source. -/
abbrev UniformData := Int × Nat × Int

/-- `HashMap::insert` on the association-list model of the uniform map:
any previous binding of the key is replaced. -/
def insertUniform (m : List (String × UniformData)) (k : String) (v : UniformData) :
    List (String × UniformData) :=
  m.filter (fun e => e.1 != k) ++ [(k, v)]

/-- One iteration of the reflection loop (`program.rs` lines 158-173):
fetch the active uniform's name bytes, decode them (`unwrap` panics on
invalid UTF-8, modelled as `none`), look up its location by name, insert. -/
def reflectStep (b : Backend) (acc : Option (List (String × UniformData))) (i : Nat) :
    Option (List (String × UniformData)) :=
  match acc with
  | none => none
  | some m =>
    match utf8Decode (b.uniformName i) with
    | none => none
    | some name =>
        some (insertUniform m name
          (b.uniformLocation name, b.uniformType i, b.uniformSize i))

/-- Embedding of the uniform-reflection task of `Program::new`
(`program.rs` lines 149-177): query the active-uniform count and fold the
per-index query loop over `range(0, active_uniforms)`. -/
def reflectUniforms (b : Backend) : Option (List (String × UniformData)) :=
  (List.range b.activeUniforms.toNat).foldl (reflectStep b) (some [])

/-- Mirror of the `Program` struct: program handle, owned shader handles,
and the uniform map (association list with `HashMap` insert semantics). -/
structure ProgramModel where
  id : Nat
  shaders : List Nat
  uniforms : List (String × UniformData)
deriving DecidableEq, Repr

/-- Embedding of `Program::new` (`program.rs` lines 73-185): compile the
stages, link, reflect.  The trace records every GL call and every deletion
task submitted before the function returns (including the `Shader` drops
performed when an error propagates through `try!`).  A result of `none`
models a panic of the `unwrap` on invalid UTF-8. -/
def Program.new (b : Backend) (vs fs : String) (gs : Option String) :
    List GlCall × Option (Except ProgramCreationError ProgramModel) :=
  match compileStages b vs fs gs with
  | (tc, none) => (tc, none)
  | (tc, some (Except.error e)) => (tc, some (Except.error e))
  | (tc, some (Except.ok ids)) =>
    match linkTask b ids with
    | (tl, none) => (tc ++ tl, none)
    | (tl, some (Except.error e)) =>
        (tc ++ tl ++ shaderDrops ids, some (Except.error e))
    | (tl, some (Except.ok pid)) =>
      match reflectUniforms b with
      | none => (tc ++ tl, none)
      | some m =>
          (tc ++ tl, some (Except.ok { id := pid, shaders := ids, uniforms := m }))

/-- Handles allocated during a trace: the nonzero returns of
`glCreateShader` and `glCreateProgram`. -/
def allocatedHandles (t : List GlCall) : List Nat :=
  t.filterMap (fun c =>
    match c with
    | GlCall.createShader _ r => if r = 0 then none else some r
    | GlCall.createProgram r => if r = 0 then none else some r
    | _ => none)

/-- Handles for which a deletion was submitted during a trace. -/
def deletedHandles (t : List GlCall) : List Nat :=
  t.filterMap (fun c =>
    match c with
    | GlCall.deleteShader i => some i
    | GlCall.deleteProgram i => some i
    | _ => none)

/-- Shader stages for which a `glCreateShader` call appears in a trace,
in call order. -/
def stagesAttempted (t : List GlCall) : List ShaderStage :=
  t.filterMap (fun c =>
    match c with
    | GlCall.createShader s _ => some s
    | _ => none)

/-- The context's tracked GL state relevant to program destruction:
the currently bound program (`ctxt.state.program`). -/
structure ContextState where
  program : Nat
deriving DecidableEq, Repr

/-- Embedding of the destruction task submitted by `Drop for Program`
(`program.rs` lines 218-229): unbind first if this program is the currently
bound one (resetting the tracked state), then delete the handle. -/
def programDestroyTask (id : Nat) (st : ContextState) : ContextState × List GlCall :=
  if st.program = id then
    ({ program := 0 }, [GlCall.useProgram 0, GlCall.deleteProgram id])
  else
    (st, [GlCall.deleteProgram id])

/-- Key of the vertex-array-object cache: the source filters entries by
`|&&(_, p)| p == self.id`, so the key is a pair whose second component is a
program handle. -/
abbrev VaoKey := Nat × Nat

/-- Embedding of the VAO-cache purge in `Drop for Program`
(`program.rs` lines 209-216): collect every key whose program component is
this program's handle, then remove each collected key from the cache. -/
def dropVaos (id : Nat) (vaos : List (VaoKey × Nat)) : List (VaoKey × Nat) :=
  let toDelete := (vaos.filter (fun e => e.1.2 == id)).map (fun e => e.1)
  vaos.filter (fun e => decide (e.1 ∉ toDelete))

/-- Observable events of `Drop for Program`, in the order the code performs
them: the cache removals of the purge loop, then the submission of the
destruction task to the context executor. -/
inductive DropEvent where
  | removeVao (key : VaoKey)
  | submitDestroy (id : Nat)
deriving DecidableEq, Repr

/-- Ordered event trace of `Drop for Program` (`program.rs` lines 206-231). -/
def Program.dropEvents (id : Nat) (vaos : List (VaoKey × Nat)) : List DropEvent :=
  (vaos.filter (fun e => e.1.2 == id)).map (fun e => DropEvent.removeVao e.1)
    ++ [DropEvent.submitDestroy id]

/-! Equation lemmas for the branches of `compileStages` and `Program.new`. -/

theorem compileStages_vertex_none {b : Backend} {vs fs : String} {gs : Option String}
    {tv : List GlCall} (hv : build_shader b ShaderStage.vertex vs = (tv, none)) :
    compileStages b vs fs gs = (tv, none) := by
  unfold compileStages
  simp only [hv]

theorem compileStages_vertex_err {b : Backend} {vs fs : String} {gs : Option String}
    {tv : List GlCall} {e : ProgramCreationError}
    (hv : build_shader b ShaderStage.vertex vs = (tv, some (Except.error e))) :
    compileStages b vs fs gs = (tv, some (Except.error e)) := by
  unfold compileStages
  simp only [hv]

theorem compileStages_nog_frag_none {b : Backend} {vs fs : String}
    {tv tf : List GlCall} {vid : Nat}
    (hv : build_shader b ShaderStage.vertex vs = (tv, some (Except.ok vid)))
    (hf : build_shader b ShaderStage.fragment fs = (tf, none)) :
    compileStages b vs fs none = (tv ++ tf, none) := by
  unfold compileStages
  simp only [hv, hf]

theorem compileStages_nog_frag_err {b : Backend} {vs fs : String}
    {tv tf : List GlCall} {vid : Nat} {e : ProgramCreationError}
    (hv : build_shader b ShaderStage.vertex vs = (tv, some (Except.ok vid)))
    (hf : build_shader b ShaderStage.fragment fs = (tf, some (Except.error e))) :
    compileStages b vs fs none =
      (tv ++ tf ++ [GlCall.deleteShader vid], some (Except.error e)) := by
  unfold compileStages
  simp only [hv, hf]

theorem compileStages_nog_ok {b : Backend} {vs fs : String}
    {tv tf : List GlCall} {vid fid : Nat}
    (hv : build_shader b ShaderStage.vertex vs = (tv, some (Except.ok vid)))
    (hf : build_shader b ShaderStage.fragment fs = (tf, some (Except.ok fid))) :
    compileStages b vs fs none = (tv ++ tf, some (Except.ok [vid, fid])) := by
  unfold compileStages
  simp only [hv, hf]

theorem compileStages_geom_none {b : Backend} {vs fs g : String}
    {tv tg : List GlCall} {vid : Nat}
    (hv : build_shader b ShaderStage.vertex vs = (tv, some (Except.ok vid)))
    (hg : build_shader b ShaderStage.geometry g = (tg, none)) :
    compileStages b vs fs (some g) = (tv ++ tg, none) := by
  unfold compileStages
  simp only [hv, hg]

theorem compileStages_geom_err {b : Backend} {vs fs g : String}
    {tv tg : List GlCall} {vid : Nat} {e : ProgramCreationError}
    (hv : build_shader b ShaderStage.vertex vs = (tv, some (Except.ok vid)))
    (hg : build_shader b ShaderStage.geometry g = (tg, some (Except.error e))) :
    compileStages b vs fs (some g) =
      (tv ++ tg ++ [GlCall.deleteShader vid], some (Except.error e)) := by
  unfold compileStages
  simp only [hv, hg]

theorem compileStages_geom_frag_none {b : Backend} {vs fs g : String}
    {tv tg tf : List GlCall} {vid gid : Nat}
    (hv : build_shader b ShaderStage.vertex vs = (tv, some (Except.ok vid)))
    (hg : build_shader b ShaderStage.geometry g = (tg, some (Except.ok gid)))
    (hf : build_shader b ShaderStage.fragment fs = (tf, none)) :
    compileStages b vs fs (some g) = (tv ++ tg ++ tf, none) := by
  unfold compileStages
  simp only [hv, hg, hf]

theorem compileStages_geom_frag_err {b : Backend} {vs fs g : String}
    {tv tg tf : List GlCall} {vid gid : Nat} {e : ProgramCreationError}
    (hv : build_shader b ShaderStage.vertex vs = (tv, some (Except.ok vid)))
    (hg : build_shader b ShaderStage.geometry g = (tg, some (Except.ok gid)))
    (hf : build_shader b ShaderStage.fragment fs = (tf, some (Except.error e))) :
    compileStages b vs fs (some g) =
      (tv ++ tg ++ tf ++ [GlCall.deleteShader vid, GlCall.deleteShader gid],
       some (Except.error e)) := by
  unfold compileStages
  simp only [hv, hg, hf]

theorem compileStages_geom_ok {b : Backend} {vs fs g : String}
    {tv tg tf : List GlCall} {vid gid fid : Nat}
    (hv : build_shader b ShaderStage.vertex vs = (tv, some (Except.ok vid)))
    (hg : build_shader b ShaderStage.geometry g = (tg, some (Except.ok gid)))
    (hf : build_shader b ShaderStage.fragment fs = (tf, some (Except.ok fid))) :
    compileStages b vs fs (some g) = (tv ++ tg ++ tf, some (Except.ok [vid, gid, fid])) := by
  unfold compileStages
  simp only [hv, hg, hf]

theorem stagesAttempted_append (a c : List GlCall) :
    stagesAttempted (a ++ c) = stagesAttempted a ++ stagesAttempted c := by
  simp [stagesAttempted]

theorem stagesAttempted_shaderCalls (s : ShaderStage) (id : Nat) :
    stagesAttempted (shaderCalls s id) = [s] := by
  simp [stagesAttempted, shaderCalls]

theorem stagesAttempted_linkCalls (id : Nat) (ids : List Nat) :
    stagesAttempted (linkCalls id ids) = [] := by
  simp [stagesAttempted, linkCalls, List.filterMap_cons, List.filterMap_append,
    List.filterMap_map, List.filterMap_eq_nil_iff]

theorem build_shader_createShader_stage {b : Backend} {s : ShaderStage} {src : String}
    {s2 : ShaderStage} {h : Nat}
    (hm : GlCall.createShader s2 h ∈ (build_shader b s src).1) : s2 = s := by
  unfold build_shader at hm
  split at hm
  · simp at hm
  · split at hm
    · simp at hm
      exact hm.1
    · split at hm
      · split at hm <;> (simp [shaderCalls] at hm; exact hm.1)
      · simp [shaderCalls] at hm
        exact hm.1

theorem stagesAttempted_build_shader {b : Backend} {s : ShaderStage} {src : String}
    (hng : ¬(s = ShaderStage.geometry ∧ b.openglEs = true)) :
    stagesAttempted (build_shader b s src).1 = [s] := by
  unfold build_shader
  split
  · exact absurd (by assumption) hng
  · split
    · simp [stagesAttempted]
    · split
      · split <;> simp [stagesAttempted_shaderCalls]
      · simp [stagesAttempted_shaderCalls]

theorem build_shader_geom_es {b : Backend} {src : String}
    (hes : b.openglEs = true) :
    build_shader b ShaderStage.geometry src =
      ([], some (Except.error ProgramCreationError.ShaderTypeNotSupported)) := by
  unfold build_shader
  simp [hes]

theorem stagesAttempted_linkTask (b : Backend) (ids : List Nat) :
    stagesAttempted (linkTask b ids).1 = [] := by
  unfold linkTask
  split
  · simp [stagesAttempted]
  · split
    · split
      · split <;> simp [stagesAttempted_linkCalls]
      · split
        · simp [stagesAttempted_linkCalls]
        · split <;> simp [stagesAttempted_linkCalls]
    · simp [stagesAttempted_linkCalls]

theorem stagesAttempted_shaderDrops (ids : List Nat) :
    stagesAttempted (shaderDrops ids) = [] := by
  simp [stagesAttempted, shaderDrops]

theorem build_shader_panic {b : Backend} {s : ShaderStage} {src : String}
    {t : List GlCall} (h : build_shader b s src = (t, none)) :
    utf8Decode (b.shaderLog s src) = none := by
  unfold build_shader at h
  split at h
  · simp at h
  · split at h
    · simp at h
    · split at h
      · split at h
        · simp_all
        · simp at h
      · simp at h

theorem linkTask_panic {b : Backend} {ids : List Nat} {t : List GlCall}
    (h : linkTask b ids = (t, none)) :
    utf8Decode b.programLog = none := by
  unfold linkTask at h
  split at h
  · simp at h
  · split at h
    · split at h
      · split at h
        · simp_all
        · simp at h
      · split at h
        · simp at h
        · split at h <;> simp at h
    · simp at h

theorem foldl_reflectStep_none (b : Backend) (l : List Nat) :
    List.foldl (reflectStep b) none l = none := by
  induction l with
  | nil => rfl
  | cons i l ih => simpa [reflectStep] using ih

theorem foldl_reflectStep_some_inv (b : Backend) :
    ∀ (l : List Nat) (m : List (String × UniformData)),
      List.foldl (reflectStep b) (some m) l = none →
      ∃ i, i ∈ l ∧ utf8Decode (b.uniformName i) = none := by
  intro l
  induction l with
  | nil => intro m h; simp at h
  | cons i l ih =>
    intro m h
    simp only [List.foldl_cons] at h
    cases hd : utf8Decode (b.uniformName i) with
    | none => exact ⟨i, by simp, hd⟩
    | some name =>
      simp only [reflectStep, hd] at h
      obtain ⟨j, hj, hjd⟩ := ih _ h
      exact ⟨j, by simp [hj], hjd⟩

theorem reflectUniforms_panic {b : Backend} (h : reflectUniforms b = none) :
    ∃ i, utf8Decode (b.uniformName i) = none := by
  unfold reflectUniforms at h
  obtain ⟨i, _, hi⟩ := foldl_reflectStep_some_inv b _ _ h
  exact ⟨i, hi⟩

theorem insertUniform_keys_nodup {m : List (String × UniformData)}
    {k : String} {v : UniformData} (hm : (m.map Prod.fst).Nodup) :
    ((insertUniform m k v).map Prod.fst).Nodup := by
  unfold insertUniform
  rw [List.map_append, List.nodup_append]
  refine ⟨?_, by simp, ?_⟩
  · exact hm.sublist ((List.filter_sublist m).map Prod.fst)
  · intro a ha hb
    simp only [List.map_cons, List.map_nil, List.mem_singleton] at hb
    simp only [List.mem_map, List.mem_filter, bne_iff_ne, ne_eq] at ha
    obtain ⟨e, ⟨_, hne⟩, rfl⟩ := ha
    exact hne hb

theorem foldl_reflectStep_nodup (b : Backend) :
    ∀ (l : List Nat) (m m' : List (String × UniformData)),
      (m.map Prod.fst).Nodup →
      List.foldl (reflectStep b) (some m) l = some m' →
      (m'.map Prod.fst).Nodup := by
  intro l
  induction l with
  | nil =>
    intro m m' hm h
    simp only [List.foldl_nil, Option.some.injEq] at h
    exact h ▸ hm
  | cons i l ih =>
    intro m m' hm h
    simp only [List.foldl_cons] at h
    cases hd : utf8Decode (b.uniformName i) with
    | none =>
      rw [show reflectStep b (some m) i = none by simp [reflectStep, hd],
        foldl_reflectStep_none] at h
      exact absurd h (by simp)
    | some name =>
      rw [show reflectStep b (some m) i =
          some (insertUniform m name
            (b.uniformLocation name, b.uniformType i, b.uniformSize i)) by
        simp [reflectStep, hd]] at h
      exact ih _ _ (insertUniform_keys_nodup hm) h

theorem reflectUniforms_nodup {b : Backend} {m : List (String × UniformData)}
    (h : reflectUniforms b = some m) : (m.map Prod.fst).Nodup := by
  unfold reflectUniforms at h
  exact foldl_reflectStep_nodup b _ [] m (by simp) h

theorem Program.new_cs_none {b : Backend} {vs fs : String} {gs : Option String}
    {tc : List GlCall} (hc : compileStages b vs fs gs = (tc, none)) :
    Program.new b vs fs gs = (tc, none) := by
  unfold Program.new
  simp only [hc]

theorem Program.new_cs_err {b : Backend} {vs fs : String} {gs : Option String}
    {tc : List GlCall} {e : ProgramCreationError}
    (hc : compileStages b vs fs gs = (tc, some (Except.error e))) :
    Program.new b vs fs gs = (tc, some (Except.error e)) := by
  unfold Program.new
  simp only [hc]

theorem Program.new_link_none {b : Backend} {vs fs : String} {gs : Option String}
    {tc tl : List GlCall} {ids : List Nat}
    (hc : compileStages b vs fs gs = (tc, some (Except.ok ids)))
    (hl : linkTask b ids = (tl, none)) :
    Program.new b vs fs gs = (tc ++ tl, none) := by
  unfold Program.new
  simp only [hc, hl]

theorem Program.new_link_err {b : Backend} {vs fs : String} {gs : Option String}
    {tc tl : List GlCall} {ids : List Nat} {e : ProgramCreationError}
    (hc : compileStages b vs fs gs = (tc, some (Except.ok ids)))
    (hl : linkTask b ids = (tl, some (Except.error e))) :
    Program.new b vs fs gs = (tc ++ tl ++ shaderDrops ids, some (Except.error e)) := by
  unfold Program.new
  simp only [hc, hl]

theorem Program.new_reflect_none {b : Backend} {vs fs : String} {gs : Option String}
    {tc tl : List GlCall} {ids : List Nat} {pid : Nat}
    (hc : compileStages b vs fs gs = (tc, some (Except.ok ids)))
    (hl : linkTask b ids = (tl, some (Except.ok pid)))
    (hr : reflectUniforms b = none) :
    Program.new b vs fs gs = (tc ++ tl, none) := by
  unfold Program.new
  simp only [hc, hl, hr]

theorem Program.new_ok {b : Backend} {vs fs : String} {gs : Option String}
    {tc tl : List GlCall} {ids : List Nat} {pid : Nat}
    {m : List (String × UniformData)}
    (hc : compileStages b vs fs gs = (tc, some (Except.ok ids)))
    (hl : linkTask b ids = (tl, some (Except.ok pid)))
    (hr : reflectUniforms b = some m) :
    Program.new b vs fs gs =
      (tc ++ tl, some (Except.ok { id := pid, shaders := ids, uniforms := m })) := by
  unfold Program.new
  simp only [hc, hl, hr]

deriving instance DecidableEq for Except

/-! Concrete backends used to exercise the model on explicit inputs. -/

/-- Backend on which every stage compiles, linking succeeds, and two active
uniforms named `x` and `y` are reported. -/
def goodBackend : Backend where
  openglEs := false
  createShader := fun s => match s with
    | ShaderStage.vertex => 1
    | ShaderStage.geometry => 2
    | ShaderStage.fragment => 3
  compileStatus := fun _ _ => 1
  shaderLog := fun _ _ => []
  createProgram := 7
  linkStatus := 1
  getError := GL_NO_ERROR
  programLog := []
  activeUniforms := 2
  uniformName := fun i => if i = 0 then asciiBytes "x" else asciiBytes "y"
  uniformType := fun _ => 5
  uniformSize := fun _ => 1
  uniformLocation := fun _ => 4

/-- Backend on which only the fragment stage fails to compile, with log `bad`. -/
def fragFailBackend : Backend :=
  { goodBackend with
    compileStatus := fun s _ => if s = ShaderStage.fragment then 0 else 1
    shaderLog := fun _ _ => asciiBytes "bad" }

/-- Backend on which only the vertex stage fails to compile, with log `bad`. -/
def vertexFailBackend : Backend :=
  { goodBackend with
    compileStatus := fun s _ => if s = ShaderStage.vertex then 0 else 1
    shaderLog := fun _ _ => asciiBytes "bad" }

/-- Backend on which linking fails and `glGetError` reports
`GL_INVALID_VALUE`, with a nonempty info log `LOG`. -/
def linkIVBackend : Backend :=
  { goodBackend with
    linkStatus := 0
    getError := GL_INVALID_VALUE
    programLog := asciiBytes "LOG" }

/-- Backend on which linking fails and `glGetError` reports `GL_NO_ERROR`,
with info log `LOG`. -/
def linkNEBackend : Backend :=
  { goodBackend with
    linkStatus := 0
    getError := GL_NO_ERROR
    programLog := asciiBytes "LOG" }

/-- Reduced-capability (OpenGL ES) backend on which every stage compiles. -/
def esBackend : Backend := { goodBackend with openglEs := true }

/-- OpenGL ES backend on which the vertex stage fails to compile. -/
def esVertexFailBackend : Backend := { vertexFailBackend with openglEs := true }

/-- Does `p` start the list `l`? Helper for `occursIn`. -/
def listStartsWith : List Char → List Char → Bool
  | [], _ => true
  | _ :: _, [] => false
  | p :: ps, c :: cs => p == c && listStartsWith ps cs

/-- Does `pat` occur as a contiguous run inside the second list?  Used to state
whether the info-log text is embedded in a diagnostic message. -/
def occursIn (pat : List Char) : List Char → Bool
  | [] => listStartsWith pat []
  | c :: cs => listStartsWith pat (c :: cs) || occursIn pat cs

/-- Inversion for a successful `build_shader`: the trace is exactly the
create/upload/compile sequence for the returned handle. -/
theorem build_shader_ok_inv {b : Backend} {s : ShaderStage} {src : String}
    {t : List GlCall} {i : Nat}
    (h : build_shader b s src = (t, some (Except.ok i))) :
    t = shaderCalls s i ∧ b.createShader s = i := by
  unfold build_shader at h
  split at h
  · simp at h
  · split at h
    · simp at h
    · split at h
      · split at h <;> simp at h
      · simp only [Prod.mk.injEq, Option.some.injEq, Except.ok.injEq] at h
        obtain ⟨h1, h2⟩ := h
        subst h2
        exact ⟨h1.symm, rfl⟩

/-- Either a stage's build attempts `glCreateShader` for exactly that stage,
or (geometry on ES) it attempts nothing. -/
theorem stagesAttempted_build_shader_or (b : Backend) (s : ShaderStage) (src : String) :
    stagesAttempted (build_shader b s src).1 = [s] ∨
    stagesAttempted (build_shader b s src).1 = [] := by
  by_cases h : s = ShaderStage.geometry ∧ b.openglEs = true
  · right
    obtain ⟨rfl, hes⟩ := h
    rw [build_shader_geom_es hes]
    rfl
  · left
    exact stagesAttempted_build_shader h

/-- A panic (`none`) of the stage-compilation phase always originates in an
invalid-UTF-8 info log of one of the three stages. -/
theorem compileStages_panic {b : Backend} {vs fs : String} {gs : Option String}
    {t : List GlCall} (h : compileStages b vs fs gs = (t, none)) :
    utf8Decode (b.shaderLog ShaderStage.vertex vs) = none ∨
    (∃ g, gs = some g ∧ utf8Decode (b.shaderLog ShaderStage.geometry g) = none) ∨
    utf8Decode (b.shaderLog ShaderStage.fragment fs) = none := by
  unfold compileStages at h
  split at h
  · rename_i heq
    exact Or.inl (build_shader_panic heq)
  · simp at h
  · split at h
    · split at h
      · rename_i heq
        exact Or.inr (Or.inr (build_shader_panic heq))
      · simp at h
      · simp at h
    · split at h
      · rename_i heq
        exact Or.inr (Or.inl ⟨_, rfl, build_shader_panic heq⟩)
      · simp at h
      · split at h
        · rename_i heq
          exact Or.inr (Or.inr (build_shader_panic heq))
        · simp at h
        · simp at h

/-- C1: a failed build is claimed to submit a deletion task for every GPU
handle it allocated.  The code violates this: when the fragment stage fails to
compile, its freshly allocated shader handle (3) never receives a
`DeleteShader` task (only the stored vertex shader is dropped), and when
linking fails the program handle (7) never receives a `DeleteProgram` task. -/
theorem failed_build_leaks_failing_handles :
    (Program.new fragFailBackend "v" "f" none).2 =
      some (Except.error (ProgramCreationError.CompilationError "bad")) ∧
    3 ∈ allocatedHandles (Program.new fragFailBackend "v" "f" none).1 ∧
    3 ∉ deletedHandles (Program.new fragFailBackend "v" "f" none).1 ∧
    (Program.new linkNEBackend "v" "f" none).2 =
      some (Except.error (ProgramCreationError.LinkingError "LOG")) ∧
    7 ∈ allocatedHandles (Program.new linkNEBackend "v" "f" none).1 ∧
    7 ∉ deletedHandles (Program.new linkNEBackend "v" "f" none).1 := by
  decide

/-- C2 counterexample: on a link failure with `glGetError` reporting
`GL_INVALID_VALUE`, the diagnostic text is the fixed classification message
alone and the info log (`LOG`, present and decodable) does not occur in it;
conversely with `GL_NO_ERROR` the text is exactly the info log with no
classification.  The claim "classification followed by the full info log" is
therefore false. -/
theorem link_error_message_omits_info_log :
    (Program.new linkIVBackend "v" "f" none).2 =
      some (Except.error (ProgramCreationError.LinkingError
        "glLinkProgram triggered GL_INVALID_VALUE")) ∧
    utf8Decode linkIVBackend.programLog = some "LOG" ∧
    occursIn "LOG".data "glLinkProgram triggered GL_INVALID_VALUE".data = false ∧
    (Program.new linkNEBackend "v" "f" none).2 =
      some (Except.error (ProgramCreationError.LinkingError "LOG")) := by
  decide

/-- Trace of a successful vertex+fragment compilation phase on the concrete
backends (handles 1 and 3). -/
def okCompileTrace : List GlCall :=
  shaderCalls ShaderStage.vertex 1 ++ shaderCalls ShaderStage.fragment 3

/-- C2 amended: on a link failure the error is `LinkingError`; its text is
exactly the decoded info log (fetched via the two-call length/content
pattern) when `glGetError` reports `GL_NO_ERROR`, and exactly the fixed
classification message — with the info log never fetched — when it reports
invalid-value, invalid-operation, or an unknown code. -/
theorem link_failure_error_classification {b : Backend} {vs fs : String}
    {gs : Option String} {tc : List GlCall} {ids : List Nat}
    (hc : compileStages b vs fs gs = (tc, some (Except.ok ids)))
    (hp : b.createProgram ≠ 0) (hl : b.linkStatus = 0) :
    (b.getError = GL_NO_ERROR → ∀ m, utf8Decode b.programLog = some m →
      (Program.new b vs fs gs).2 =
        some (Except.error (ProgramCreationError.LinkingError m))) ∧
    (b.getError = GL_INVALID_VALUE →
      (Program.new b vs fs gs).2 =
        some (Except.error (ProgramCreationError.LinkingError
          "glLinkProgram triggered GL_INVALID_VALUE"))) ∧
    (b.getError = GL_INVALID_OPERATION →
      (Program.new b vs fs gs).2 =
        some (Except.error (ProgramCreationError.LinkingError
          "glLinkProgram triggered GL_INVALID_OPERATION"))) ∧
    (b.getError ≠ GL_NO_ERROR → b.getError ≠ GL_INVALID_VALUE →
      b.getError ≠ GL_INVALID_OPERATION →
      (Program.new b vs fs gs).2 =
        some (Except.error (ProgramCreationError.LinkingError
          "glLinkProgram triggered an unknown error"))) := by
  refine ⟨?_, ?_, ?_, ?_⟩
  · intro hge m hm
    have hlt : linkTask b ids =
        (linkCalls b.createProgram ids,
         some (Except.error (ProgramCreationError.LinkingError m))) := by
      unfold linkTask
      simp only [if_neg hp, if_pos hl, if_pos hge, hm]
    rw [Program.new_link_err hc hlt]
  · intro hge
    have hne : b.getError ≠ GL_NO_ERROR := by
      rw [hge]
      decide
    have hlt : linkTask b ids =
        (linkCalls b.createProgram ids,
         some (Except.error (ProgramCreationError.LinkingError
           "glLinkProgram triggered GL_INVALID_VALUE"))) := by
      unfold linkTask
      simp only [if_neg hp, if_pos hl, if_neg hne, if_pos hge]
    rw [Program.new_link_err hc hlt]
  · intro hge
    have hne : b.getError ≠ GL_NO_ERROR := by
      rw [hge]
      decide
    have hniv : b.getError ≠ GL_INVALID_VALUE := by
      rw [hge]
      decide
    have hlt : linkTask b ids =
        (linkCalls b.createProgram ids,
         some (Except.error (ProgramCreationError.LinkingError
           "glLinkProgram triggered GL_INVALID_OPERATION"))) := by
      unfold linkTask
      simp only [if_neg hp, if_pos hl, if_neg hne, if_neg hniv, if_pos hge]
    rw [Program.new_link_err hc hlt]
  · intro hne hniv hnio
    have hlt : linkTask b ids =
        (linkCalls b.createProgram ids,
         some (Except.error (ProgramCreationError.LinkingError
           "glLinkProgram triggered an unknown error"))) := by
      unfold linkTask
      simp only [if_neg hp, if_pos hl, if_neg hne, if_neg hniv, if_neg hnio]
    rw [Program.new_link_err hc hlt]

/-- Witness for the amended link-failure classification at a concrete
backend reporting `GL_INVALID_VALUE`. -/
theorem link_failure_error_classification_witness :
    (Program.new linkIVBackend "v" "f" none).2 =
      some (Except.error (ProgramCreationError.LinkingError
        "glLinkProgram triggered GL_INVALID_VALUE")) :=
  (@link_failure_error_classification linkIVBackend "v" "f" none okCompileTrace [1, 3]
    (by decide) (by decide) (by decide)).2.1 (by decide)

/-- C3 counterexample: two builds that fail in different stages (vertex versus
fragment) with the same backend log return the identical error value
`CompilationError "bad"`, so the error does not carry which stage failed. -/
theorem compilation_error_lacks_stage_info :
    (Program.new vertexFailBackend "v" "f" none).2 =
      some (Except.error (ProgramCreationError.CompilationError "bad")) ∧
    (Program.new fragFailBackend "v" "f" none).2 =
      some (Except.error (ProgramCreationError.CompilationError "bad")) ∧
    vertexFailBackend.compileStatus ShaderStage.vertex "v" = 0 ∧
    vertexFailBackend.compileStatus ShaderStage.fragment "f" = 1 ∧
    fragFailBackend.compileStatus ShaderStage.vertex "v" = 1 ∧
    fragFailBackend.compileStatus ShaderStage.fragment "f" = 0 := by
  decide

/-- C3 amended: a `CompilationError` carries exactly the decoded backend
diagnostic text of the failing stage and nothing else — in particular the
failing stage's identity is not part of the error value (the variant has a
single `String` field). -/
theorem compilation_error_carries_backend_log {b : Backend} {stage : ShaderStage}
    {src : String} {t : List GlCall} {m : String}
    (h : build_shader b stage src =
      (t, some (Except.error (ProgramCreationError.CompilationError m)))) :
    b.compileStatus stage src = 0 ∧ utf8Decode (b.shaderLog stage src) = some m := by
  unfold build_shader at h
  split at h
  · simp at h
  · split at h
    · simp at h
    · split at h
      · split at h
        · simp at h
        · rename_i msg heq
          simp only [Prod.mk.injEq, Option.some.injEq, Except.error.injEq,
            ProgramCreationError.CompilationError.injEq] at h
          exact ⟨by assumption, by rw [heq, h.2]⟩
      · simp at h

/-- Witness for the amended compilation-error statement at a concrete backend
whose vertex stage fails with log `bad`. -/
theorem compilation_error_carries_backend_log_witness :
    vertexFailBackend.compileStatus ShaderStage.vertex "v" = 0 ∧
    utf8Decode (vertexFailBackend.shaderLog ShaderStage.vertex "v") = some "bad" :=
  @compilation_error_carries_backend_log vertexFailBackend ShaderStage.vertex "v"
    (shaderCalls ShaderStage.vertex 1) "bad" (by decide)

/-- C5 counterexample: a build that requests a geometry stage on an OpenGL ES
backend does not necessarily fail with `ShaderTypeNotSupported`: the vertex
stage is compiled first, so a vertex compile error wins, and the vertex source
was uploaded before the geometry/ES check ever ran. -/
theorem geometry_on_es_check_is_not_first :
    (Program.new esVertexFailBackend "v" "f" (some "g")).2 =
      some (Except.error (ProgramCreationError.CompilationError "bad")) ∧
    ProgramCreationError.CompilationError "bad" ≠
      ProgramCreationError.ShaderTypeNotSupported ∧
    GlCall.shaderSource 1 ∈ (Program.new esVertexFailBackend "v" "f" (some "g")).1 := by
  decide

/-- C5 amended: on a reduced-capability (OpenGL ES) backend, a build that
requests a geometry stage and whose vertex stage compiles successfully fails
with `ShaderTypeNotSupported`; the geometry check runs before any
geometry-stage allocation or upload, so no geometry `glCreateShader` appears
in the trace and the only source upload is the vertex stage's.  The vertex
stage is still compiled (and its shader deleted) first. -/
theorem geometry_on_es_rejected_after_vertex (b : Backend) (vs fs g : String)
    (tv : List GlCall) (vid : Nat) (hes : b.openglEs = true)
    (hv : build_shader b ShaderStage.vertex vs = (tv, some (Except.ok vid))) :
    Program.new b vs fs (some g) =
      (tv ++ [GlCall.deleteShader vid],
       some (Except.error ProgramCreationError.ShaderTypeNotSupported)) ∧
    (∀ r, GlCall.createShader ShaderStage.geometry r ∉ (Program.new b vs fs (some g)).1) ∧
    (∀ i, GlCall.shaderSource i ∈ (Program.new b vs fs (some g)).1 → i = vid) := by
  have hg := @build_shader_geom_es b g hes
  have hcs := @compileStages_geom_err b vs fs g tv [] vid
    ProgramCreationError.ShaderTypeNotSupported hv hg
  rw [List.append_nil] at hcs
  have hpn := Program.new_cs_err hcs
  obtain ⟨htv, _⟩ := build_shader_ok_inv hv
  subst htv
  refine ⟨hpn, ?_, ?_⟩
  · intro r
    rw [hpn]
    simp [shaderCalls]
  · intro i hi
    rw [hpn] at hi
    simp [shaderCalls] at hi
    exact hi

/-- Witness for the amended geometry-on-ES statement at a concrete ES backend
whose vertex stage compiles. -/
theorem geometry_on_es_rejected_after_vertex_witness :
    Program.new esBackend "v" "f" (some "g") =
      (shaderCalls ShaderStage.vertex 1 ++ [GlCall.deleteShader 1],
       some (Except.error ProgramCreationError.ShaderTypeNotSupported)) :=
  (geometry_on_es_rejected_after_vertex esBackend "v" "f" "g"
    (shaderCalls ShaderStage.vertex 1) 1 (by decide) (by decide)).1

/-- A deletion-task singleton attempts no stage. -/
theorem stagesAttempted_delete_one (i : Nat) :
    stagesAttempted [GlCall.deleteShader i] = [] := rfl

/-- A pair of deletion tasks attempts no stage. -/
theorem stagesAttempted_delete_two (i j : Nat) :
    stagesAttempted [GlCall.deleteShader i, GlCall.deleteShader j] = [] := rfl

/-- C4: stages are compiled in the fixed order vertex, geometry (if
requested), fragment: the `glCreateShader` attempts of any build, in call
order, form one of the four order-respecting sequences; when the vertex stage
fails its error is returned and nothing past the vertex stage is attempted;
when the geometry stage fails (vertex having succeeded) its error is returned
and the fragment stage is never attempted; when the fragment stage fails
(earlier stages having succeeded) its error is returned. -/
theorem stage_order_and_first_error (b : Backend) (vs fs : String) (gs : Option String) :
    (stagesAttempted (Program.new b vs fs gs).1 = [ShaderStage.vertex] ∨
     stagesAttempted (Program.new b vs fs gs).1 =
       [ShaderStage.vertex, ShaderStage.geometry] ∨
     stagesAttempted (Program.new b vs fs gs).1 =
       [ShaderStage.vertex, ShaderStage.fragment] ∨
     stagesAttempted (Program.new b vs fs gs).1 =
       [ShaderStage.vertex, ShaderStage.geometry, ShaderStage.fragment]) ∧
    (∀ tv e, build_shader b ShaderStage.vertex vs = (tv, some (Except.error e)) →
      (Program.new b vs fs gs).2 = some (Except.error e) ∧
      stagesAttempted (Program.new b vs fs gs).1 = [ShaderStage.vertex]) ∧
    (∀ g tv vid tg e, gs = some g →
      build_shader b ShaderStage.vertex vs = (tv, some (Except.ok vid)) →
      build_shader b ShaderStage.geometry g = (tg, some (Except.error e)) →
      (Program.new b vs fs gs).2 = some (Except.error e) ∧
      ∀ r, GlCall.createShader ShaderStage.fragment r ∉ (Program.new b vs fs gs).1) ∧
    (∀ tv vid tf e, gs = none →
      build_shader b ShaderStage.vertex vs = (tv, some (Except.ok vid)) →
      build_shader b ShaderStage.fragment fs = (tf, some (Except.error e)) →
      (Program.new b vs fs gs).2 = some (Except.error e)) ∧
    (∀ g tv vid tg gid tf e, gs = some g →
      build_shader b ShaderStage.vertex vs = (tv, some (Except.ok vid)) →
      build_shader b ShaderStage.geometry g = (tg, some (Except.ok gid)) →
      build_shader b ShaderStage.fragment fs = (tf, some (Except.error e)) →
      (Program.new b vs fs gs).2 = some (Except.error e)) := by
  refine ⟨?_, ?_, ?_, ?_, ?_⟩
  · rcases hv : build_shader b ShaderStage.vertex vs with ⟨tv, rv⟩
    have hsv : stagesAttempted tv = [ShaderStage.vertex] := by
      have h0 := @stagesAttempted_build_shader b ShaderStage.vertex vs (by simp)
      rwa [hv] at h0
    rcases rv with _ | rv2
    · rw [Program.new_cs_none (compileStages_vertex_none hv)]
      exact Or.inl hsv
    · rcases rv2 with e | vid
      · rw [Program.new_cs_err (compileStages_vertex_err hv)]
        exact Or.inl hsv
      · rcases gs with _ | g
        · rcases hf : build_shader b ShaderStage.fragment fs with ⟨tf, rf⟩
          have hsf : stagesAttempted tf = [ShaderStage.fragment] := by
            have h0 := @stagesAttempted_build_shader b ShaderStage.fragment fs (by simp)
            rwa [hf] at h0
          rcases rf with _ | rf2
          · rw [Program.new_cs_none (compileStages_nog_frag_none hv hf)]
            simp [stagesAttempted_append, hsv, hsf]
          · rcases rf2 with e | fid
            · rw [Program.new_cs_err (compileStages_nog_frag_err hv hf)]
              simp [stagesAttempted_append, hsv, hsf, stagesAttempted_delete_one]
            · have hcs := compileStages_nog_ok hv hf
              rcases hl : linkTask b [vid, fid] with ⟨tl, rl⟩
              have hsl : stagesAttempted tl = [] := by
                have h0 := stagesAttempted_linkTask b [vid, fid]
                rwa [hl] at h0
              rcases rl with _ | rl2
              · rw [Program.new_link_none hcs hl]
                simp [stagesAttempted_append, hsv, hsf, hsl]
              · rcases rl2 with e | pid
                · rw [Program.new_link_err hcs hl]
                  simp [stagesAttempted_append, hsv, hsf, hsl,
                    stagesAttempted_shaderDrops]
                · rcases hr : reflectUniforms b with _ | m
                  · rw [Program.new_reflect_none hcs hl hr]
                    simp [stagesAttempted_append, hsv, hsf, hsl]
                  · rw [Program.new_ok hcs hl hr]
                    simp [stagesAttempted_append, hsv, hsf, hsl]
        · rcases hg : build_shader b ShaderStage.geometry g with ⟨tg, rg⟩
          have hsgOr : stagesAttempted tg = [ShaderStage.geometry] ∨
              stagesAttempted tg = [] := by
            have h0 := stagesAttempted_build_shader_or b ShaderStage.geometry g
            rwa [hg] at h0
          rcases rg with _ | rg2
          · rw [Program.new_cs_none (compileStages_geom_none hv hg)]
            rcases hsgOr with h | h <;> simp [stagesAttempted_append, hsv, h]
          · rcases rg2 with e | gid
            · rw [Program.new_cs_err (compileStages_geom_err hv hg)]
              rcases hsgOr with h | h <;>
                simp [stagesAttempted_append, hsv, h, stagesAttempted_delete_one]
            · have hsg : stagesAttempted tg = [ShaderStage.geometry] := by
                rcases hsgOr with h | h
                · exact h
                · exfalso
                  obtain ⟨htg, _⟩ := build_shader_ok_inv hg
                  rw [htg] at h
                  simp [stagesAttempted_shaderCalls] at h
              rcases hf : build_shader b ShaderStage.fragment fs with ⟨tf, rf⟩
              have hsf : stagesAttempted tf = [ShaderStage.fragment] := by
                have h0 := @stagesAttempted_build_shader b ShaderStage.fragment fs (by simp)
                rwa [hf] at h0
              rcases rf with _ | rf2
              · rw [Program.new_cs_none (compileStages_geom_frag_none hv hg hf)]
                simp [stagesAttempted_append, hsv, hsg, hsf]
              · rcases rf2 with e | fid
                · rw [Program.new_cs_err (compileStages_geom_frag_err hv hg hf)]
                  simp [stagesAttempted_append, hsv, hsg, hsf, stagesAttempted_delete_two]
                · have hcs := compileStages_geom_ok hv hg hf
                  rcases hl : linkTask b [vid, gid, fid] with ⟨tl, rl⟩
                  have hsl : stagesAttempted tl = [] := by
                    have h0 := stagesAttempted_linkTask b [vid, gid, fid]
                    rwa [hl] at h0
                  rcases rl with _ | rl2
                  · rw [Program.new_link_none hcs hl]
                    simp [stagesAttempted_append, hsv, hsg, hsf, hsl]
                  · rcases rl2 with e | pid
                    · rw [Program.new_link_err hcs hl]
                      simp [stagesAttempted_append, hsv, hsg, hsf, hsl,
                        stagesAttempted_shaderDrops]
                    · rcases hr : reflectUniforms b with _ | m
                      · rw [Program.new_reflect_none hcs hl hr]
                        simp [stagesAttempted_append, hsv, hsg, hsf, hsl]
                      · rw [Program.new_ok hcs hl hr]
                        simp [stagesAttempted_append, hsv, hsg, hsf, hsl]
  · intro tv e hv
    rw [Program.new_cs_err (compileStages_vertex_err hv)]
    have hsv : stagesAttempted tv = [ShaderStage.vertex] := by
      have h0 := @stagesAttempted_build_shader b ShaderStage.vertex vs (by simp)
      rwa [hv] at h0
    exact ⟨rfl, hsv⟩
  · intro g tv vid tg e hgs hv hg
    subst hgs
    rw [Program.new_cs_err (compileStages_geom_err hv hg)]
    refine ⟨rfl, ?_⟩
    intro r hr
    simp only [List.mem_append, List.mem_singleton] at hr
    rcases hr with (hr | hr) | hr
    · have h1 : GlCall.createShader ShaderStage.fragment r ∈
          (build_shader b ShaderStage.vertex vs).1 := by
        rw [hv]
        exact hr
      exact absurd (build_shader_createShader_stage h1) (by simp)
    · have h1 : GlCall.createShader ShaderStage.fragment r ∈
          (build_shader b ShaderStage.geometry g).1 := by
        rw [hg]
        exact hr
      exact absurd (build_shader_createShader_stage h1) (by simp)
    · simp at hr
  · intro tv vid tf e hgs hv hf
    subst hgs
    rw [Program.new_cs_err (compileStages_nog_frag_err hv hf)]
  · intro g tv vid tg gid tf e hgs hv hg hf
    subst hgs
    rw [Program.new_cs_err (compileStages_geom_frag_err hv hg hf)]

/-- Witness for the stage-order theorem: on the vertex-failing backend the
vertex error surfaces and only the vertex stage is attempted. -/
theorem stage_order_and_first_error_witness :
    (Program.new vertexFailBackend "v" "f" none).2 =
      some (Except.error (ProgramCreationError.CompilationError "bad")) ∧
    stagesAttempted (Program.new vertexFailBackend "v" "f" none).1 =
      [ShaderStage.vertex] :=
  (stage_order_and_first_error vertexFailBackend "v" "f" none).2.1
    (shaderCalls ShaderStage.vertex 1) (ProgramCreationError.CompilationError "bad")
    (by decide)

/-- Backend whose `glCreateShader` always returns the null handle. -/
def zeroShaderBackend : Backend := { goodBackend with createShader := fun _ => 0 }

/-- Backend whose `glCreateProgram` returns the null handle. -/
def zeroProgramBackend : Backend := { goodBackend with createProgram := 0 }

/-- C6: a null handle from `glCreateShader` makes the stage build fail with
`ShaderTypeNotSupported` (allocation failure is folded into the
unsupported-stage kind), and a null handle from `glCreateProgram` makes the
whole build fail with `ProgramCreationFailure` (after the shader drops). -/
theorem zero_handle_error_kinds (b : Backend) (stage : ShaderStage) (src vs fs : String)
    (gs : Option String) (tc : List GlCall) (ids : List Nat) :
    ((stage = ShaderStage.geometry → b.openglEs = false) → b.createShader stage = 0 →
      build_shader b stage src =
        ([GlCall.createShader stage 0],
         some (Except.error ProgramCreationError.ShaderTypeNotSupported))) ∧
    (compileStages b vs fs gs = (tc, some (Except.ok ids)) → b.createProgram = 0 →
      Program.new b vs fs gs =
        (tc ++ [GlCall.createProgram 0] ++ shaderDrops ids,
         some (Except.error ProgramCreationError.ProgramCreationFailure))) := by
  constructor
  · intro hng hz
    have hne : ¬(stage = ShaderStage.geometry ∧ b.openglEs = true) := by
      rintro ⟨h1, h2⟩
      rw [hng h1] at h2
      exact Bool.false_ne_true h2
    unfold build_shader
    rw [if_neg hne, if_pos hz]
  · intro hc hp
    have hlt : linkTask b ids =
        ([GlCall.createProgram 0],
         some (Except.error ProgramCreationError.ProgramCreationFailure)) := by
      unfold linkTask
      rw [if_pos hp]
    rw [Program.new_link_err hc hlt]

/-- Witness for the null-handle error kinds at concrete backends returning
null shader and null program handles. -/
theorem zero_handle_error_kinds_witness :
    build_shader zeroShaderBackend ShaderStage.vertex "v" =
      ([GlCall.createShader ShaderStage.vertex 0],
       some (Except.error ProgramCreationError.ShaderTypeNotSupported)) ∧
    Program.new zeroProgramBackend "v" "f" none =
      (okCompileTrace ++ [GlCall.createProgram 0] ++ shaderDrops [1, 3],
       some (Except.error ProgramCreationError.ProgramCreationFailure)) :=
  ⟨(zero_handle_error_kinds zeroShaderBackend ShaderStage.vertex "v" "v" "f" none
      [] []).1 (by decide) (by decide),
   (zero_handle_error_kinds zeroProgramBackend ShaderStage.vertex "v" "v" "f" none
      okCompileTrace [1, 3]).2 (by decide) (by decide)⟩

/-- C7: whenever `Program::new` succeeds, the returned uniform map has
pairwise-distinct names (it is built with `HashMap::insert`) and is exactly
the table produced by querying each active-uniform index in `[0, count)` for
its name, type tag, element count, and location. -/
theorem success_uniform_map_nodup (b : Backend) (vs fs : String) (gs : Option String)
    (t : List GlCall) (p : ProgramModel)
    (h : Program.new b vs fs gs = (t, some (Except.ok p))) :
    (p.uniforms.map Prod.fst).Nodup ∧ reflectUniforms b = some p.uniforms := by
  unfold Program.new at h
  split at h
  · simp at h
  · simp at h
  · split at h
    · simp at h
    · simp at h
    · split at h
      · simp at h
      · rename_i m heq
        simp only [Prod.mk.injEq, Option.some.injEq, Except.ok.injEq] at h
        obtain ⟨_, h2⟩ := h
        subst h2
        exact ⟨reflectUniforms_nodup heq, heq⟩

/-- Program value produced by `Program.new` on `goodBackend`. -/
def goodProgram : ProgramModel :=
  { id := 7, shaders := [1, 3], uniforms := [("x", (4, 5, 1)), ("y", (4, 5, 1))] }

/-- Witness for the uniform-map theorem on a successful concrete build with
two distinct uniforms. -/
theorem success_uniform_map_nodup_witness :
    (goodProgram.uniforms.map Prod.fst).Nodup ∧
    reflectUniforms goodBackend = some goodProgram.uniforms :=
  success_uniform_map_nodup goodBackend "v" "f" none
    (okCompileTrace ++ linkCalls 7 [1, 3]) goodProgram (by decide)

/-- C8: dropping a program removes from the VAO cache exactly the entries
whose key references this program's handle and leaves every other entry
unchanged, and in the drop's event order every cache removal precedes the
single submission of the destruction task. -/
theorem drop_purges_exactly_own_vaos (i : Nat) (vaos : List (VaoKey × Nat)) :
    (∀ e, e ∈ dropVaos i vaos ↔ (e ∈ vaos ∧ e.1.2 ≠ i)) ∧
    (∃ pre, Program.dropEvents i vaos = pre ++ [DropEvent.submitDestroy i] ∧
      ∀ ev, ev ∈ pre → ∃ k, ev = DropEvent.removeVao k ∧ k.2 = i) := by
  constructor
  · intro e
    simp only [dropVaos, List.mem_filter, decide_eq_true_eq]
    constructor
    · rintro ⟨he, hnd⟩
      refine ⟨he, fun hip => hnd ?_⟩
      simp only [List.mem_map, List.mem_filter, beq_iff_eq]
      exact ⟨e, ⟨he, hip⟩, rfl⟩
    · rintro ⟨he, hne⟩
      refine ⟨he, fun hmem => ?_⟩
      simp only [List.mem_map, List.mem_filter, beq_iff_eq] at hmem
      obtain ⟨e2, ⟨_, h2⟩, h3⟩ := hmem
      exact hne (h3 ▸ h2)
  · refine ⟨_, rfl, ?_⟩
    intro ev hev
    simp only [List.mem_map, List.mem_filter, beq_iff_eq] at hev
    obtain ⟨e, ⟨_, h2⟩, rfl⟩ := hev
    exact ⟨e.1, rfl, h2⟩

/-- Witness for the VAO-purge theorem at a concrete cache with one entry for
program 7 and one for program 5. -/
theorem drop_purges_exactly_own_vaos_witness :
    (((1, 7), 10) ∈ dropVaos 7 [((1, 7), 10), ((2, 5), 11)]) ↔
      ((((1, 7), 10) ∈ ([((1, 7), 10), ((2, 5), 11)] : List (VaoKey × Nat))) ∧
       ((1, 7) : VaoKey).2 ≠ 7) :=
  (drop_purges_exactly_own_vaos 7 [((1, 7), 10), ((2, 5), 11)]).1 ((1, 7), 10)

/-- C9: the destruction task never deletes the program while it is the
currently bound one: if the tracked bound program equals this handle, the task
binds the neutral program 0 (and resets the tracked state) before the delete
call; otherwise the tracked state is left unchanged and only the delete call
is made. -/
theorem destroy_task_unbinds_before_delete (i : Nat) (st : ContextState) :
    (st.program = i →
      programDestroyTask i st =
        ({ program := 0 }, [GlCall.useProgram 0, GlCall.deleteProgram i])) ∧
    (st.program ≠ i → programDestroyTask i st = (st, [GlCall.deleteProgram i])) := by
  constructor
  · intro h
    unfold programDestroyTask
    rw [if_pos h]
  · intro h
    unfold programDestroyTask
    rw [if_neg h]

/-- Witness for the destruction task in both the bound and unbound states. -/
theorem destroy_task_unbinds_before_delete_witness :
    programDestroyTask 7 { program := 7 } =
      ({ program := 0 }, [GlCall.useProgram 0, GlCall.deleteProgram 7]) ∧
    programDestroyTask 7 { program := 4 } =
      ({ program := 4 }, [GlCall.deleteProgram 7]) :=
  ⟨(destroy_task_unbinds_before_delete 7 { program := 7 }).1 rfl,
   (destroy_task_unbinds_before_delete 7 { program := 4 }).2 (by decide)⟩

/-- Backend whose diagnostic replies are all valid UTF-8 and constant. -/
def asciiBackend : Backend :=
  { goodBackend with uniformName := fun _ => asciiBytes "u" }

/-- Backend whose vertex stage fails with an invalid-UTF-8 info log. -/
def panicBackend : Backend :=
  { goodBackend with
    compileStatus := fun s _ => if s = ShaderStage.vertex then 0 else 1
    shaderLog := fun _ _ => [0xFF] }

/-- C10: when every byte sequence the backend can reply with (compile logs,
link log, uniform names) is valid UTF-8, the panic branch of the text
conversion is unreachable and `Program.new` terminates normally; and a build
whose vertex stage fails with an invalid-UTF-8 log panics (result `none`)
instead of returning a `ProgramCreationError`. -/
theorem utf8_panic_semantics (b : Backend) (vs fs : String) (gs : Option String) :
    ((∀ s src, utf8Decode (b.shaderLog s src) ≠ none) →
     utf8Decode b.programLog ≠ none →
     (∀ i, utf8Decode (b.uniformName i) ≠ none) →
     (Program.new b vs fs gs).2 ≠ none) ∧
    (b.createShader ShaderStage.vertex ≠ 0 →
     b.compileStatus ShaderStage.vertex vs = 0 →
     utf8Decode (b.shaderLog ShaderStage.vertex vs) = none →
     (Program.new b vs fs gs).2 = none) := by
  constructor
  · intro h1 h2 h3 habs
    rcases hc : compileStages b vs fs gs with ⟨tc, rc⟩
    rcases rc with _ | rc2
    · rcases compileStages_panic hc with hd | ⟨g, _, hd⟩ | hd
      · exact absurd hd (h1 _ _)
      · exact absurd hd (h1 _ _)
      · exact absurd hd (h1 _ _)
    · rcases rc2 with e | ids
      · rw [Program.new_cs_err hc] at habs
        simp at habs
      · rcases hl : linkTask b ids with ⟨tl, rl⟩
        rcases rl with _ | rl2
        · exact absurd (linkTask_panic hl) h2
        · rcases rl2 with e | pid
          · rw [Program.new_link_err hc hl] at habs
            simp at habs
          · rcases hr : reflectUniforms b with _ | m
            · obtain ⟨i, hd⟩ := reflectUniforms_panic hr
              exact absurd hd (h3 i)
            · rw [Program.new_ok hc hl hr] at habs
              simp at habs
  · intro h1 h2 h3
    have hbs : build_shader b ShaderStage.vertex vs =
        (shaderCalls ShaderStage.vertex (b.createShader ShaderStage.vertex), none) := by
      unfold build_shader
      rw [if_neg (by simp), if_neg h1, if_pos h2]
      simp only [h3]
    rw [Program.new_cs_none (compileStages_vertex_none hbs)]

/-- Witness for the UTF-8 panic semantics: the all-valid backend returns a
value, the invalid-log backend panics. -/
theorem utf8_panic_semantics_witness :
    (Program.new asciiBackend "v" "f" none).2 ≠ none ∧
    (Program.new panicBackend "v" "f" none).2 = none :=
  ⟨(utf8_panic_semantics asciiBackend "v" "f" none).1
     (fun _ _ => by
       show utf8Decode [] ≠ none
       decide)
     (by decide)
     (fun _ => by
       show utf8Decode (asciiBytes "u") ≠ none
       decide),
   (utf8_panic_semantics panicBackend "v" "f" none).2
     (by decide) (by decide) (by decide)⟩

end Glium
